import Mathlib

/-!
Shallow embedding of the `CropYieldPredictor` component (the form/result
workflow controller of the crop-yield prediction screen).

Modelling conventions:
* JavaScript numbers are rationals (`Rat`); `NaN` is represented as `none`
  where it can occur (as the result of `parseFloat`), and the JS coercions
  `x || 0` and `x || null` are embedded explicitly.
* Calendar dates are opaque day numbers (`Nat`); nothing in the component
  inspects a date.
* The component's observable side effects (toasts, the `onPredict` and
  `onSave` collaborator calls, the two enrichment fetches) are returned as an
  explicit effect list next to the post-state.
* Decimal formatting of coordinates (`toFixed(4)`) and of interpolated
  numbers is abstracted by a total stand-in function; no property here
  depends on the exact digits produced.
-/

set_option autoImplicit false

namespace CropYield

/-- The `farmSize` group of the submission: `{ value: number; unit: string }`. -/
structure FarmSize where
  value : Rat
  unit : String
deriving DecidableEq

/-- A detected farm location: `{ lat: number; lon: number; name: string }`. -/
structure FarmLocation where
  lat : Rat
  lon : Rat
  name : String
deriving DecidableEq

/-- The `PredictionData` interface: the mutable FarmSubmission record owned by
the component. `pestPhoto` is an optional attachment the UI never populates. -/
structure PredictionData where
  cropName : String
  variety : String
  sowingDate : Option Nat
  farmLocation : Option FarmLocation
  farmSize : FarmSize
  soilType : String
  soilPH : Option Rat
  nLevel : Option Rat
  pLevel : Option Rat
  kLevel : Option Rat
  irrigationSource : String
  lastIrrigationDate : Option Nat
  fertilizersUsed : List String
  pestObserved : Bool
  pestPhoto : Option Unit
deriving DecidableEq

/-- `predictedYield: { value: number; unit: string }`. -/
structure PredictedYield where
  value : Rat
  unit : String
deriving DecidableEq

/-- `confidenceInterval: { min: number; max: number }`. -/
structure ConfidenceInterval where
  min : Rat
  max : Rat
deriving DecidableEq

/-- One entry of the `recommendations` array. -/
structure Recommendation where
  type : String
  title : String
  description : String
  icon : String
deriving DecidableEq

/-- The `PredictionResult` interface (the PredictionOutcome). `isOffline` is an
optional boolean in the source, hence `Option Bool`. -/
structure PredictionResult where
  predictedYield : PredictedYield
  confidenceInterval : ConfidenceInterval
  recommendations : List Recommendation
  explanation : String
  isOffline : Option Bool
deriving DecidableEq

/-- The two UI locales. -/
inductive Language where
  | en
  | hi
deriving DecidableEq

/-- All mutable state cells of the component:
`language`, `isOnline`, `isLoading`, `isLocating`, `data`, `result`,
`selectedFertilizers`. -/
structure ComponentState where
  language : Language
  isOnline : Bool
  isLoading : Bool
  isLocating : Bool
  data : PredictionData
  result : Option PredictionResult
  selectedFertilizers : List String
deriving DecidableEq

/-- The initial `data` passed to `useState`. -/
def initialData : PredictionData where
  cropName := ""
  variety := ""
  sowingDate := none
  farmLocation := none
  farmSize := { value := 0, unit := "Hectares" }
  soilType := ""
  soilPH := none
  nLevel := none
  pLevel := none
  kLevel := none
  irrigationSource := ""
  lastIrrigationDate := none
  fertilizersUsed := []
  pestObserved := false
  pestPhoto := none

/-- The component state right after mount; `online` is `navigator.onLine`. -/
def initialState (online : Bool) : ComponentState where
  language := .en
  isOnline := online
  isLoading := false
  isLocating := false
  data := initialData
  result := none
  selectedFertilizers := []

/-- Observable side effects of the action handlers. -/
inductive Effect where
  | toast (title description : String) (destructive : Bool)
  | onPredictCall (payload : PredictionData)
  | onSaveCall (payload : PredictionData)
  | fetchWeather (lat lon : Rat)
  | fetchSoil (lat lon : Rat)
deriving DecidableEq

/-- Stand-in for JavaScript number-to-string conversion (template literals);
the exact digit string is irrelevant to every property proved below. -/
def jsNumToString (r : Rat) : String := toString r

/-- JS template interpolation of a `number | null` value: `null` prints as
the literal text "null". -/
def jsOptNumToString : Option Rat → String
  | none => "null"
  | some r => jsNumToString r

/-- Stand-in for `Number.toFixed(4)` used to build the location name. -/
def toFixed4 (r : Rat) : String := jsNumToString r

/-- The fixed three-entry recommendation list inside `handlePredict`. -/
def mockRecommendations : List Recommendation :=
  [{ type := "irrigation"
     title := "Optimize Irrigation"
     description := "Increase irrigation frequency by 20% during flowering stage"
     icon := "droplets" },
   { type := "fertilization"
     title := "Nitrogen Boost"
     description := "Apply additional 15kg/ha nitrogen in the next 2 weeks"
     icon := "zap" },
   { type := "pest"
     title := "Pest Monitoring"
     description := "Monitor for aphids and apply organic neem spray if needed"
     icon := "bug" }]

/-- The `explanation` template literal of `mockResult`: it interpolates
`data.cropName` and `data.soilPH` into fixed surrounding text. -/
def mockExplanation (cropName : String) (soilPH : Option Rat) : String :=
  "Based on your " ++ cropName ++
    " variety, soil conditions, and current weather patterns, we predict a yield of 4.2 tonnes per hectare. The soil pH of " ++
    jsOptNumToString soilPH ++
    " is optimal for this crop. Consider the recommendations above to potentially increase yield by 8-12%."

/-- The `mockResult` object built on the success path of `handlePredict`. -/
def mockResult (d : PredictionData) (isOnline : Bool) : PredictionResult where
  predictedYield := { value := 42/10, unit := "tonnes/hectare" }
  confidenceInterval := { min := 38/10, max := 46/10 }
  recommendations := mockRecommendations
  explanation := mockExplanation d.cropName d.soilPH
  isOffline := some (!isOnline)

/-- The JS truthiness test guarding `handlePredict`:
`!data.cropName || !data.soilType || !data.farmSize.value`.
An empty string and the number `0` are the only falsy values these three
fields can take (`farmSize.value` is never `NaN`: every write collapses
`NaN` to `0` via `parseFloat(...) || 0`). -/
def predictValidationFails (d : PredictionData) : Bool :=
  d.cropName == "" || d.soilType == "" || d.farmSize.value == 0

/-- `handlePredict`: on a failed gate, an error toast and no state change;
otherwise store the mock result, call `onPredict`, and end with the
`isLoading` flag cleared by the `finally` block. -/
def handlePredict (s : ComponentState) : ComponentState × List Effect :=
  if predictValidationFails s.data then
    (s, [.toast "Missing information" "Please fill in all required fields" true])
  else
    ({ s with isLoading := false, result := some (mockResult s.data s.isOnline) },
      [.onPredictCall s.data])

/-- `handleSave`: forwards the current submission to `onSave` and toasts;
no gate, no state change. -/
def handleSave (s : ComponentState) : ComponentState × List Effect :=
  (s, [.onSaveCall s.data,
    .toast "Data saved" "Your farm data has been saved successfully" false])

/-- The list update inside `toggleFertilizer`: remove the name when present
(`filter(f => f !== fertilizer)`), append it when absent. -/
def toggleList (fertilizer : String) (selected : List String) : List String :=
  if fertilizer ∈ selected then selected.filter (fun f => f != fertilizer)
  else selected ++ [fertilizer]

/-- `toggleFertilizer`: computes `updated` from `selectedFertilizers` and
writes it to both `selectedFertilizers` and `data.fertilizersUsed`. -/
def toggleFertilizer (fertilizer : String) (s : ComponentState) : ComponentState :=
  let updated := toggleList fertilizer s.selectedFertilizers
  { s with
    selectedFertilizers := updated
    data := { s.data with fertilizersUsed := updated } }

/-- Failure modes of `getCurrentPosition`. -/
inductive GeoError where
  | permissionDenied
  | timeout
  | positionUnavailable
deriving DecidableEq

/-- A geolocation fix: `position.coords`. -/
structure GeoPosition where
  latitude : Rat
  longitude : Rat
deriving DecidableEq

/-- The browser environment read by `detectLocation`: whether
`navigator.geolocation` exists, and what the position request delivers. -/
structure GeoEnv where
  supported : Bool
  position : Except GeoError GeoPosition

/-- `detectLocation`: capability check, position request, location write,
online-gated enrichment fetches, toasts; the `finally` block clears
`isLocating` on every path past the capability check. -/
def detectLocation (env : GeoEnv) (s : ComponentState) : ComponentState × List Effect :=
  if !env.supported then
    (s, [.toast "Location not supported"
      "Your browser doesn\x27t support location detection" true])
  else
    match env.position with
    | .error _ =>
      ({ s with isLocating := false },
        [.toast "Location error"
          "Could not detect your location. Please select manually." true])
    | .ok pos =>
      let locationName := toFixed4 pos.latitude ++ ", " ++ toFixed4 pos.longitude
      let s1 := { s with
        isLocating := false
        data := { s.data with
          farmLocation := some
            { lat := pos.latitude, lon := pos.longitude, name := locationName } } }
      let enrich : List Effect :=
        if s.isOnline then
          [.fetchWeather pos.latitude pos.longitude,
            .fetchSoil pos.latitude pos.longitude]
        else []
      (s1, enrich ++
        [.toast "Location detected" ("Farm location set to " ++ locationName) false])

/-- The JS coercion `parseFloat(input) || 0` applied to a parse result
(`none` is `NaN`): `NaN` and `0` both collapse to `0`. -/
def parseOrZero : Option Rat → Rat
  | none => 0
  | some r => r

/-- The JS coercion `parseFloat(input) || null` applied to a parse result
(`none` is `NaN`): `NaN` and `0` both collapse to `null`. -/
def parseOrNull : Option Rat → Option Rat
  | none => none
  | some r => if r == 0 then none else some r

/-- One `setData` field handler of the form, tagged by the field it targets.
Numeric inputs carry the `parseFloat` result (`none` for `NaN`). -/
inductive FieldUpdate where
  | cropName (v : String)
  | variety (v : String)
  | sowingDate (v : Option Nat)
  | farmSizeValue (parsed : Option Rat)
  | farmSizeUnit (v : String)
  | soilType (v : String)
  | soilPH (parsed : Option Rat)
  | nLevel (parsed : Option Rat)
  | pLevel (parsed : Option Rat)
  | kLevel (parsed : Option Rat)
  | irrigationSource (v : String)
  | lastIrrigationDate (v : Option Nat)
  | pestObserved (v : Bool)

/-- The spread-update each `setData` handler performs: one field is replaced,
the enclosing record (and, for the `farmSize` group, the sibling attribute)
is spread from the previous value. -/
def applyFieldUpdate (u : FieldUpdate) (d : PredictionData) : PredictionData :=
  match u with
  | .cropName v => { d with cropName := v }
  | .variety v => { d with variety := v }
  | .sowingDate v => { d with sowingDate := v }
  | .farmSizeValue parsed =>
    { d with farmSize := { d.farmSize with value := parseOrZero parsed } }
  | .farmSizeUnit v => { d with farmSize := { d.farmSize with unit := v } }
  | .soilType v => { d with soilType := v }
  | .soilPH parsed => { d with soilPH := parseOrNull parsed }
  | .nLevel parsed => { d with nLevel := parseOrNull parsed }
  | .pLevel parsed => { d with pLevel := parseOrNull parsed }
  | .kLevel parsed => { d with kLevel := parseOrNull parsed }
  | .irrigationSource v => { d with irrigationSource := v }
  | .lastIrrigationDate v => { d with lastIrrigationDate := v }
  | .pestObserved v => { d with pestObserved := v }

/-- A sequence of field handlers applied left to right. -/
def applyFieldUpdates (us : List FieldUpdate) (d : PredictionData) : PredictionData :=
  us.foldl (fun d u => applyFieldUpdate u d) d

/-- Names of the observable fields of `PredictionData`; the two attributes of
the `farmSize` group are separate fields. -/
inductive FieldName where
  | cropName
  | variety
  | sowingDate
  | farmLocation
  | farmSizeValue
  | farmSizeUnit
  | soilType
  | soilPH
  | nLevel
  | pLevel
  | kLevel
  | irrigationSource
  | lastIrrigationDate
  | fertilizersUsed
  | pestObserved
deriving DecidableEq

/-- The value of one field, wrapped in a sum over the field types. -/
inductive FieldVal where
  | str (v : String)
  | num (v : Rat)
  | optNum (v : Option Rat)
  | optDate (v : Option Nat)
  | optLoc (v : Option FarmLocation)
  | strList (v : List String)
  | flag (v : Bool)
deriving DecidableEq

/-- Projection of one named field out of the submission record. -/
def readField (f : FieldName) (d : PredictionData) : FieldVal :=
  match f with
  | .cropName => .str d.cropName
  | .variety => .str d.variety
  | .sowingDate => .optDate d.sowingDate
  | .farmLocation => .optLoc d.farmLocation
  | .farmSizeValue => .num d.farmSize.value
  | .farmSizeUnit => .str d.farmSize.unit
  | .soilType => .str d.soilType
  | .soilPH => .optNum d.soilPH
  | .nLevel => .optNum d.nLevel
  | .pLevel => .optNum d.pLevel
  | .kLevel => .optNum d.kLevel
  | .irrigationSource => .str d.irrigationSource
  | .lastIrrigationDate => .optDate d.lastIrrigationDate
  | .fertilizersUsed => .strList d.fertilizersUsed
  | .pestObserved => .flag d.pestObserved

/-- The field a handler targets. -/
def targetOf : FieldUpdate → FieldName
  | .cropName _ => .cropName
  | .variety _ => .variety
  | .sowingDate _ => .sowingDate
  | .farmSizeValue _ => .farmSizeValue
  | .farmSizeUnit _ => .farmSizeUnit
  | .soilType _ => .soilType
  | .soilPH _ => .soilPH
  | .nLevel _ => .nLevel
  | .pLevel _ => .pLevel
  | .kLevel _ => .kLevel
  | .irrigationSource _ => .irrigationSource
  | .lastIrrigationDate _ => .lastIrrigationDate
  | .pestObserved _ => .pestObserved

/-- Every state-mutating interaction the component exposes: the field
handlers, the fertilizer toggle, the two action buttons, location detection,
the language switch, and the platform online/offline callbacks. -/
inductive Op where
  | field (u : FieldUpdate)
  | toggle (fertilizer : String)
  | predict
  | save
  | detect (env : GeoEnv)
  | switchLanguage
  | setOnline (b : Bool)

/-- One interaction applied to the component state (side effects dropped). -/
def step (s : ComponentState) (op : Op) : ComponentState :=
  match op with
  | .field u => { s with data := applyFieldUpdate u s.data }
  | .toggle fertilizer => toggleFertilizer fertilizer s
  | .predict => (handlePredict s).1
  | .save => (handleSave s).1
  | .detect env => (detectLocation env s).1
  | .switchLanguage =>
    { s with language := match s.language with | .en => .hi | .hi => .en }
  | .setOnline b => { s with isOnline := b }

/-- The state reached from mount (with `navigator.onLine = online`) by a
sequence of interactions. -/
def runOps (online : Bool) (ops : List Op) : ComponentState :=
  ops.foldl step (initialState online)

/-- The payloads of the `onSave` collaborator calls in an effect list. -/
def onSaveCalls (effects : List Effect) : List PredictionData :=
  effects.filterMap fun e =>
    match e with
    | .onSaveCall payload => some payload
    | _ => none

/-- Whether an effect is one of the two best-effort enrichment fetches. -/
def isEnrichmentFetch : Effect → Bool
  | .fetchWeather _ _ => true
  | .fetchSoil _ _ => true
  | _ => false

/-- A concrete state with a negative farm size, reachable through the
farm-size handler (typing "-1" gives `parseFloat("-1") || 0 = -1`). -/
def negSizeState : ComponentState :=
  { initialState true with
    data := { initialData with
      cropName := "Rice"
      soilType := "Loamy"
      farmSize := { value := -1, unit := "Hectares" } } }

/-- The example submission of the spec: crop "Rice", soil "Loamy",
farm size 2, soil pH 6.5 (reached while online). -/
def riceState : ComponentState :=
  { initialState true with
    data := { initialData with
      cropName := "Rice"
      soilType := "Loamy"
      farmSize := { value := 2, unit := "Hectares" }
      soilPH := some (13/2) } }

/-- A concrete geolocation environment whose position request succeeds. -/
def okGeoEnv : GeoEnv where
  supported := true
  position := .ok { latitude := 10, longitude := 20 }

/-- A concrete geolocation environment whose position request is denied. -/
def deniedGeoEnv : GeoEnv where
  supported := true
  position := .error .permissionDenied

/-- Membership in the removal branch of the toggle. -/
theorem mem_filter_ne (y x : String) (l : List String) :
    y ∈ l.filter (fun f => f != x) ↔ y ∈ l ∧ y ≠ x := by
  simp [List.mem_filter, bne_iff_ne]

/-- Toggling the same name twice preserves membership (set involution). -/
theorem toggleList_mem_twice (x y : String) (l : List String) :
    y ∈ toggleList x (toggleList x l) ↔ y ∈ l := by
  by_cases hx : x ∈ l
  · have hxnot : x ∉ l.filter (fun f => f != x) := by
      simp [mem_filter_ne]
    have h1 : toggleList x l = l.filter (fun f => f != x) := by
      rw [toggleList, if_pos hx]
    rw [h1, toggleList, if_neg hxnot]
    by_cases hyx : y = x
    · subst hyx
      simp [hx]
    · simp [List.mem_append, mem_filter_ne, hyx]
  · have hxin : x ∈ l ++ [x] := by simp
    have h1 : toggleList x l = l ++ [x] := by
      rw [toggleList, if_neg hx]
    rw [h1, toggleList, if_pos hxin]
    simp only [List.filter_append, mem_filter_ne, List.mem_append]
    constructor
    · rintro (⟨hy, hne⟩ | ⟨hy, hne⟩)
      · exact hy
      · simp at hy
        exact absurd hy hne
    · intro hy
      exact Or.inl ⟨hy, fun hcl => hx (hcl ▸ hy)⟩

/-- Toggling preserves freedom from duplicates. -/
theorem toggleList_nodup (x : String) (l : List String) (h : l.Nodup) :
    (toggleList x l).Nodup := by
  by_cases hx : x ∈ l
  · rw [toggleList, if_pos hx]
    exact h.filter _
  · rw [toggleList, if_neg hx]
    rw [List.nodup_append]
    refine ⟨h, List.nodup_singleton x, ?_⟩
    intro a ha hax
    simp at hax
    exact hx (hax ▸ ha)

/-- No field handler writes `fertilizersUsed`. -/
theorem applyFieldUpdate_fertilizersUsed (u : FieldUpdate) (d : PredictionData) :
    (applyFieldUpdate u d).fertilizersUsed = d.fertilizersUsed := by
  cases u <;> rfl

/-- Every interaction keeps `selectedFertilizers` and `data.fertilizersUsed`
equal: `toggleFertilizer` writes the same list to both, nothing else writes
either. -/
theorem step_sync (s : ComponentState) (op : Op)
    (h : s.selectedFertilizers = s.data.fertilizersUsed) :
    (step s op).selectedFertilizers = (step s op).data.fertilizersUsed := by
  cases op with
  | field u =>
    show s.selectedFertilizers = (applyFieldUpdate u s.data).fertilizersUsed
    rw [applyFieldUpdate_fertilizersUsed]
    exact h
  | toggle fertilizer => rfl
  | predict =>
    simp only [step, handlePredict]
    split <;> exact h
  | save => exact h
  | detect env =>
    simp only [step, detectLocation]
    split
    · exact h
    · split <;> exact h
  | switchLanguage => exact h
  | setOnline b => exact h

/-- Every interaction keeps `selectedFertilizers` duplicate-free. -/
theorem step_nodup (s : ComponentState) (op : Op)
    (h : s.selectedFertilizers.Nodup) :
    (step s op).selectedFertilizers.Nodup := by
  cases op with
  | field u => exact h
  | toggle fertilizer => exact toggleList_nodup fertilizer s.selectedFertilizers h
  | predict =>
    simp only [step, handlePredict]
    split <;> exact h
  | save => exact h
  | detect env =>
    simp only [step, detectLocation]
    split
    · exact h
    · split <;> exact h
  | switchLanguage => exact h
  | setOnline b => exact h

/-- Reachable-state invariant: from mount, the two fertilizer lists are the
same list and that list has no duplicates. -/
theorem runOps_inv (online : Bool) (ops : List Op) :
    (runOps online ops).selectedFertilizers = (runOps online ops).data.fertilizersUsed ∧
    (runOps online ops).selectedFertilizers.Nodup := by
  suffices key : ∀ (s : ComponentState),
      s.selectedFertilizers = s.data.fertilizersUsed → s.selectedFertilizers.Nodup →
      (ops.foldl step s).selectedFertilizers = (ops.foldl step s).data.fertilizersUsed ∧
        (ops.foldl step s).selectedFertilizers.Nodup by
    exact key (initialState online) rfl List.nodup_nil
  induction ops with
  | nil => exact fun s hsync hnd => ⟨hsync, hnd⟩
  | cons op ops ih =>
    intro s hsync hnd
    exact ih (step s op) (step_sync s op hsync) (step_nodup s op hnd)

/-- A handler targeting one field reads back unchanged on every other field. -/
theorem readField_applyFieldUpdate_ne (u : FieldUpdate) (d : PredictionData)
    (f : FieldName) (h : targetOf u ≠ f) :
    readField f (applyFieldUpdate u d) = readField f d := by
  cases u <;> cases f <;> first | rfl | exact absurd rfl h

/-- C1 (counterexample): on the state with cropName "Rice", soilType "Loamy"
and farmSize.value = -1, the value is not greater than 0 and the outcome is
absent, yet `predict()` does not fail: it stores an outcome and reaches the
resolution step (the `onPredict` call), because the gate only tests JS
falsiness of the value. -/
theorem predict_gate_counterexample :
    ¬ (0 < negSizeState.data.farmSize.value) ∧
    negSizeState.result = none ∧
    (handlePredict negSizeState).1.result ≠ none ∧
    (handlePredict negSizeState).2 = [.onPredictCall negSizeState.data] := by
  refine ⟨by decide, rfl, ?_, rfl⟩
  intro hcontra
  exact Option.noConfusion hcontra

/-- C1 (amended): `predict()` fails with the validation toast and leaves the
whole state (in particular the PredictionOutcome) unchanged exactly when
cropName is empty, soilType is empty, or farmSize.value equals 0; whenever
all three are non-falsy — including a negative farmSize.value — it proceeds
to the resolution step, stores the outcome and calls `onPredict`. -/
theorem predict_validation_gate (s : ComponentState) :
    ((s.data.cropName = "" ∨ s.data.soilType = "" ∨ s.data.farmSize.value = 0) →
      (handlePredict s).1 = s ∧
      (handlePredict s).2 =
        [.toast "Missing information" "Please fill in all required fields" true]) ∧
    ((s.data.cropName ≠ "" ∧ s.data.soilType ≠ "" ∧ s.data.farmSize.value ≠ 0) →
      (handlePredict s).1.result = some (mockResult s.data s.isOnline) ∧
      (handlePredict s).2 = [.onPredictCall s.data]) := by
  constructor
  · intro h
    have hv : predictValidationFails s.data = true := by
      rcases h with h | h | h <;> simp [predictValidationFails, h]
    rw [handlePredict, if_pos hv]
    exact ⟨rfl, rfl⟩
  · rintro ⟨h1, h2, h3⟩
    have hv : ¬ (predictValidationFails s.data = true) := by
      simp [predictValidationFails, h1, h2, h3]
    rw [handlePredict, if_neg hv]
    exact ⟨rfl, rfl⟩

/-- C1 (witness for the amended theorem): at mount, cropName is empty, so
`predict()` leaves the state untouched and emits only the error toast. -/
theorem predict_validation_gate_witness :
    (handlePredict (initialState true)).1 = initialState true ∧
    (handlePredict (initialState true)).2 =
      [.toast "Missing information" "Please fill in all required fields" true] :=
  (predict_validation_gate (initialState true)).1 (Or.inl rfl)

/-- C2: on every state that passes the validation gate, `predict()` stores an
outcome whose confidence interval is well ordered and whose `isOffline` flag
is the negation of the reachability flag at submission time. -/
theorem predict_success_result (s : ComponentState)
    (h : s.data.cropName ≠ "" ∧ s.data.soilType ≠ "" ∧ s.data.farmSize.value ≠ 0) :
    ∃ r, (handlePredict s).1.result = some r ∧
      r.confidenceInterval.min ≤ r.confidenceInterval.max ∧
      r.isOffline = some (!s.isOnline) := by
  obtain ⟨h1, h2, h3⟩ := h
  have hv : ¬ (predictValidationFails s.data = true) := by
    simp [predictValidationFails, h1, h2, h3]
  refine ⟨mockResult s.data s.isOnline, ?_, by norm_num [mockResult], rfl⟩
  rw [handlePredict, if_neg hv]

/-- C2 (witness): the spec example crop "Rice", soil "Loamy", size 2,
pH 6.5. -/
theorem predict_success_result_witness :
    ∃ r, (handlePredict riceState).1.result = some r ∧
      r.confidenceInterval.min ≤ r.confidenceInterval.max ∧
      r.isOffline = some (!riceState.isOnline) :=
  predict_success_result riceState (by decide)

/-- C3: `save()` forwards the current FarmSubmission snapshot to the `onSave`
collaborator exactly once, unmodified, with no validation gate (no hypothesis
on the state) and no change to any workflow state. -/
theorem save_forwards_snapshot (s : ComponentState) :
    (handleSave s).1 = s ∧ onSaveCalls (handleSave s).2 = [s.data] :=
  ⟨rfl, rfl⟩

/-- C4: at every state the workflow can reach, toggling a fertilizer twice in
a row returns `fertilizersUsed` to its original set (same members), and the
list reached from the duplicate-free initial state never contains
duplicates. -/
theorem toggleFertilizer_involution_nodup (online : Bool) (ops : List Op)
    (x y : String) :
    (y ∈ (toggleFertilizer x (toggleFertilizer x (runOps online ops))).data.fertilizersUsed ↔
      y ∈ (runOps online ops).data.fertilizersUsed) ∧
    (runOps online ops).data.fertilizersUsed.Nodup := by
  obtain ⟨hsync, hnd⟩ := runOps_inv online ops
  constructor
  · have hfert :
        (toggleFertilizer x (toggleFertilizer x (runOps online ops))).data.fertilizersUsed =
          toggleList x (toggleList x (runOps online ops).selectedFertilizers) := rfl
    rw [hfert, ← hsync]
    exact toggleList_mem_twice x y (runOps online ops).selectedFertilizers
  · exact hsync ▸ hnd

/-- C5: over any sequence of field-handler calls, every field none of the
calls targets reads back unchanged; and a `farmSize` group update preserves
the sibling attribute in both directions. -/
theorem updateField_frame (us : List FieldUpdate) (d : PredictionData)
    (f : FieldName) (h : ∀ u ∈ us, targetOf u ≠ f) :
    readField f (applyFieldUpdates us d) = readField f d ∧
    (∀ p, (applyFieldUpdate (.farmSizeValue p) d).farmSize.unit = d.farmSize.unit) ∧
    (∀ v, (applyFieldUpdate (.farmSizeUnit v) d).farmSize.value = d.farmSize.value) := by
  refine ⟨?_, fun p => rfl, fun v => rfl⟩
  induction us generalizing d with
  | nil => rfl
  | cons u us ih =>
    have hstep : applyFieldUpdates (u :: us) d =
        applyFieldUpdates us (applyFieldUpdate u d) := rfl
    rw [hstep, ih (applyFieldUpdate u d) fun v hv => h v (List.mem_cons_of_mem u hv)]
    exact readField_applyFieldUpdate_ne u d f (h u (List.mem_cons_self u us))

/-- C5 (witness): a crop-name update leaves the soil type unchanged. -/
theorem updateField_frame_witness :
    readField .soilType (applyFieldUpdates [.cropName "Rice"] initialData) =
      readField .soilType initialData :=
  (updateField_frame [.cropName "Rice"] initialData .soilType (by decide)).1

/-- C6: when the reachability flag is false at submission of the position
request and the request succeeds, `detectLocation` fires neither the weather
nor the soil enrichment fetch. -/
theorem detect_offline_no_enrichment (env : GeoEnv) (s : ComponentState)
    (pos : GeoPosition) (hok : env.position = .ok pos)
    (hoff : s.isOnline = false) :
    (detectLocation env s).2.filter isEnrichmentFetch = [] := by
  cases hsup : env.supported
  · simp [detectLocation, hsup, isEnrichmentFetch]
  · simp [detectLocation, hsup, hok, hoff, isEnrichmentFetch]

/-- C6 (witness): a successful fix while offline produces no fetch effect. -/
theorem detect_offline_no_enrichment_witness :
    (detectLocation okGeoEnv (initialState false)).2.filter isEnrichmentFetch = [] :=
  detect_offline_no_enrichment okGeoEnv (initialState false)
    { latitude := 10, longitude := 20 } rfl rfl

/-- C7: whenever the position request fails — denied, timed out or
unavailable — the `farmLocation` field is exactly what it was before the
call; no failure path writes it. -/
theorem detect_failure_keeps_location (env : GeoEnv) (s : ComponentState)
    (err : GeoError) (herr : env.position = .error err) :
    (detectLocation env s).1.data.farmLocation = s.data.farmLocation := by
  cases hsup : env.supported
  · simp [detectLocation, hsup]
  · simp [detectLocation, hsup, herr]

/-- C7 (witness): a denied position request leaves the location absent. -/
theorem detect_failure_keeps_location_witness :
    (detectLocation deniedGeoEnv (initialState true)).1.data.farmLocation =
      (initialState true).data.farmLocation :=
  detect_failure_keeps_location deniedGeoEnv (initialState true)
    .permissionDenied rfl

/-- C8: past the capability check, `detectLocation` ends with the locating
flag cleared on every completion path, success or failure. -/
theorem detect_clears_locating (env : GeoEnv) (s : ComponentState)
    (hsup : env.supported = true) :
    (detectLocation env s).1.isLocating = false := by
  rcases hpos : env.position with err | pos
  · simp [detectLocation, hsup, hpos]
  · simp [detectLocation, hsup, hpos]

/-- C8 (witness): the flag is clear after a successful detection. -/
theorem detect_clears_locating_witness :
    (detectLocation okGeoEnv (initialState true)).1.isLocating = false :=
  detect_clears_locating okGeoEnv (initialState true) rfl

/-- C9: the component keeps two copies of the fertilizer selection, and after
every interaction sequence from mount the two lists are equal. -/
theorem fertilizer_lists_agree (online : Bool) (ops : List Op) :
    (runOps online ops).selectedFertilizers =
      (runOps online ops).data.fertilizersUsed :=
  (runOps_inv online ops).1

/-- C10: every successful `predict()` stores the same fixed yield, interval
and three-entry recommendation list; only the explanation (interpolating
cropName and soilPH) and the offline flag depend on the current state. -/
theorem predict_fixed_output (s : ComponentState)
    (h : s.data.cropName ≠ "" ∧ s.data.soilType ≠ "" ∧ s.data.farmSize.value ≠ 0) :
    ∃ r, (handlePredict s).1.result = some r ∧
      r.predictedYield = { value := 42/10, unit := "tonnes/hectare" } ∧
      r.confidenceInterval = { min := 38/10, max := 46/10 } ∧
      r.recommendations = mockRecommendations ∧
      r.recommendations.length = 3 ∧
      r.explanation = mockExplanation s.data.cropName s.data.soilPH ∧
      r.isOffline = some (!s.isOnline) := by
  obtain ⟨h1, h2, h3⟩ := h
  have hv : ¬ (predictValidationFails s.data = true) := by
    simp [predictValidationFails, h1, h2, h3]
  refine ⟨mockResult s.data s.isOnline, ?_, rfl, rfl, rfl, rfl, rfl, rfl⟩
  rw [handlePredict, if_neg hv]

/-- C10 (witness): the fixed output at the spec example submission. -/
theorem predict_fixed_output_witness :
    ∃ r, (handlePredict riceState).1.result = some r ∧
      r.predictedYield = { value := 42/10, unit := "tonnes/hectare" } ∧
      r.confidenceInterval = { min := 38/10, max := 46/10 } ∧
      r.recommendations = mockRecommendations ∧
      r.recommendations.length = 3 ∧
      r.explanation = mockExplanation riceState.data.cropName riceState.data.soilPH ∧
      r.isOffline = some (!riceState.isOnline) :=
  predict_fixed_output riceState (by decide)

end CropYield
